import Mathlib

/-!
Verification of the recipe-detail endpoint implemented twice in this
repository: asynchronously (src/async_python/async_serial.py, handler
homepage) and synchronously (src/sync_python/main.py, handler
recipes_list).

The embedding models the database as lists of table rows, each SQL query
as a filter/join/sort over those lists, and each handler as a pure
function from the cookie map, the clock, the database state and the
resolution of the `order by random()` shuffle to an outcome (a response
or an uncaught Python exception).  Timestamps are modelled as integers,
string positions are compared lexicographically on their character data.
-/

namespace HttpShowdown

/-! ### Ordering helpers -/

/-- Lexicographic comparison of character lists by code point. -/
def listLexLe : List Char → List Char → Bool
  | [], _ => true
  | _ :: _, [] => false
  | a :: as, b :: bs =>
    if a.val.toNat < b.val.toNat then true
    else if b.val.toNat < a.val.toNat then false
    else listLexLe as bs

/-- Lexicographic string comparison, the order Postgres applies to the
text `position` columns. -/
def strLe (a b : String) : Bool := listLexLe a.data b.data

/-- Insert an element into a sorted list, keeping earlier elements first
on ties (stable). -/
def insertSorted {α : Type} (le : α → α → Bool) (x : α) : List α → List α
  | [] => [x]
  | y :: ys => if le x y then x :: y :: ys else y :: insertSorted le x ys

/-- Stable insertion sort, modelling the SQL ORDER BY clauses. -/
def sortBy {α : Type} (le : α → α → Bool) : List α → List α
  | [] => []
  | x :: xs => insertSorted le x (sortBy le xs)

/-- Adjacent-pairs sortedness check: every element relates to its
successor. -/
def sortedBy {α : Type} (le : α → α → Bool) : List α → Bool
  | [] => true
  | [_] => true
  | x :: y :: rest => le x y && sortedBy le (y :: rest)

/-! ### Database model

One structure per table read by the handlers.  Only the columns the SQL
references are modelled; nullable timestamp columns are `Option Int`. -/

structure SessionRow where
  session_key : String
  user_id : Int
  expire_date : Int
deriving DecidableEq

structure RecipeRow where
  id : Int
  name : String
  author : String
  source : String
  time : String
  servings : String
  edits : Int
  modified : Int
  created : Int
  archived_at : Option Int
  tags : List String
  deleted_at : Option Int
  object_id : Int
  content_type_id : Int
deriving DecidableEq

structure UserRow where
  id : Int
  email : String
  name : Option String
deriving DecidableEq

structure TeamRow where
  id : Int
  name : String
deriving DecidableEq

structure MembershipRow where
  user_id : Int
  team_id : Int
  is_active : Bool
deriving DecidableEq

structure IngredientRow where
  id : Int
  position : String
  quantity : String
  name : String
  description : String
  recipe_id : Int
  deleted_at : Option Int
deriving DecidableEq

structure StepRow where
  id : Int
  text : String
  position : String
  recipe_id : Int
  deleted_at : Option Int
deriving DecidableEq

structure SectionRow where
  id : Int
  title : String
  position : String
  recipe_id : Int
  deleted_at : Option Int
deriving DecidableEq

structure NoteRow where
  id : Int
  text : String
  modified : Int
  created : Int
  recipe_id : Int
  last_modified_by_id : Option Int
  created_by_id : Int
  deleted_at : Option Int
deriving DecidableEq

structure ReactionRow where
  id : Int
  created : Int
  modified : Int
  emoji : String
  created_by_id : Int
  note_id : Int
deriving DecidableEq

structure TimelineEventRow where
  id : Int
  action : String
  created : Int
  created_by_id : Option Int
  recipe_id : Int
  deleted_at : Option Int
deriving DecidableEq

/-- The relational store both variants read from. -/
structure DB where
  sessions : List SessionRow
  recipes : List RecipeRow
  users : List UserRow
  teams : List TeamRow
  memberships : List MembershipRow
  ingredients : List IngredientRow
  steps : List StepRow
  sections : List SectionRow
  notes : List NoteRow
  reactions : List ReactionRow
  timeline_events : List TimelineEventRow
deriving DecidableEq

/-! ### Queries

The same SQL text appears in both source files (asyncpg positional
parameters versus psycopg named parameters); each query is embedded
once. -/

/-- Session lookup: user_id of a session row whose expire_date is
strictly after now and whose session_key matches exactly (LIMIT 1). -/
def sessionQuery (db : DB) (session : String) (now_utc : Int) : Option Int :=
  ((db.sessions.filter
      (fun s => decide (now_utc < s.expire_date) && (s.session_key == session))).head?).map
    (fun s => s.user_id)

/-- A row of the recipe-selection query.  The SELECT outputs two
columns named name: core_recipe.name and then the unaliased
core_team.name from the LEFT JOIN; both drivers resolve the duplicate
output name to the last-listed column, so the row's name is the
team's name — NULL for a user-owned recipe, whose team join finds no
partner. -/
structure RecipeQueryRow where
  id : Int
  name : Option String
  author : String
  source : String
  time : String
  servings : String
  edits : Int
  modified : Int
  team_id : Option Int
  user_id : Option Int
  created : Int
  archived_at : Option Int
  tags : List String
deriving DecidableEq

/-- LEFT OUTER JOIN of one recipe against the user table on
object_id = myuser.id AND content_type_id = 1: the matching user rows,
or a single null partner when none match. -/
def leftJoinedOwners (db : DB) (r : RecipeRow) : List (Option UserRow) :=
  let matching := db.users.filter
    (fun u => r.content_type_id == 1 && r.object_id == u.id)
  if matching.isEmpty then [Option.none] else matching.map Option.some

/-- LEFT OUTER JOIN of one recipe against the team table on
object_id = team.id AND content_type_id = 20: the matching team rows,
or a single null partner when none match. -/
def leftJoinedTeams (db : DB) (r : RecipeRow) : List (Option TeamRow) :=
  let matching := db.teams.filter
    (fun t => r.content_type_id == 20 && r.object_id == t.id)
  if matching.isEmpty then [Option.none] else matching.map Option.some

/-- The WHERE clause of the recipe-selection query over one joined
row: not soft-deleted, and either the joined user is the caller or the
joined team is one the caller holds an active membership in (a null
join partner satisfies neither disjunct). -/
def recipeWhere (db : DB) (user_id : Int) (r : RecipeRow)
    (u : Option UserRow) (t : Option TeamRow) : Bool :=
  (r.deleted_at == Option.none) &&
    ((match u with
      | Option.some u0 => u0.id == user_id
      | Option.none => false)
     || (match t with
      | Option.some t0 => db.memberships.any
          (fun m => m.user_id == user_id && m.is_active && m.team_id == t0.id)
      | Option.none => false))

/-- Projection of one joined recipe row onto the output columns, with
the duplicate name column resolved last-wins to the team's name. -/
def mkRecipeRowOut (r : RecipeRow) (u : Option UserRow) (t : Option TeamRow) :
    RecipeQueryRow :=
  { id := r.id, name := t.map (fun x => x.name), author := r.author
    source := r.source, time := r.time, servings := r.servings
    edits := r.edits, modified := r.modified, team_id := t.map (fun x => x.id)
    user_id := u.map (fun x => x.id), created := r.created
    archived_at := r.archived_at, tags := r.tags }

/-- The recipe-selection query before its ORDER BY RANDOM() LIMIT:
the full eligible joined set.  The random shuffle is a handler
parameter. -/
def recipeQuery (db : DB) (user_id : Int) : List RecipeQueryRow :=
  db.recipes.flatMap (fun r =>
    (leftJoinedOwners db r).flatMap (fun u =>
      ((leftJoinedTeams db r).filter (recipeWhere db user_id r u)).map
        (mkRecipeRowOut r u)))

/-- Ingredient fetch: not soft-deleted, recipe_id in the id set,
ordered ascending by position. -/
def ingredientQuery (db : DB) (recipe_ids : List Int) : List IngredientRow :=
  sortBy (fun a b => strLe a.position b.position)
    (db.ingredients.filter
      (fun i => (i.deleted_at == Option.none) && recipe_ids.contains i.recipe_id))

/-- Step fetch: not soft-deleted, recipe_id in the id set, ordered
ascending by position. -/
def stepQuery (db : DB) (recipe_ids : List Int) : List StepRow :=
  sortBy (fun a b => strLe a.position b.position)
    (db.steps.filter
      (fun s => (s.deleted_at == Option.none) && recipe_ids.contains s.recipe_id))

/-- Section fetch: not soft-deleted, recipe_id in the id set, ordered
ascending by position. -/
def sectionQuery (db : DB) (recipe_ids : List Int) : List SectionRow :=
  sortBy (fun a b => strLe a.position b.position)
    (db.sections.filter
      (fun s => (s.deleted_at == Option.none) && recipe_ids.contains s.recipe_id))

/-- A row of the note query.  The SQL selects the last-modifier email
and name and then the creator email and name under the same output
names; both drivers resolve the duplicate column names to the
last-listed columns, so the row exposes the creator identity (the
T4 inner join). -/
structure NoteQueryRow where
  id : Int
  text : String
  modified : Int
  created : Int
  recipe_id : Int
  last_modified_by_id : Option Int
  email : String
  name : Option String
  created_by_id : Int
deriving DecidableEq

/-- Projection of one note row inner-joined with its creating user. -/
def mkNoteRow (n : NoteRow) (u : UserRow) : NoteQueryRow :=
  { id := n.id, text := n.text, modified := n.modified, created := n.created
    recipe_id := n.recipe_id, last_modified_by_id := n.last_modified_by_id
    email := u.email, name := u.name, created_by_id := n.created_by_id }

/-- Note fetch: not soft-deleted, recipe_id in the id set, INNER JOIN
with the creating user (a note without a matching user row yields no
output row), ordered descending by creation time. -/
def noteQuery (db : DB) (recipe_ids : List Int) : List NoteQueryRow :=
  sortBy (fun a b => decide (b.created ≤ a.created))
    (db.notes.flatMap (fun n =>
      if (n.deleted_at == Option.none) && recipe_ids.contains n.recipe_id then
        (db.users.filter (fun u => n.created_by_id == u.id)).map (mkNoteRow n)
      else []))

/-- Reaction fetch: INNER JOIN with the parent note, keeping reactions
whose parent note's recipe_id is in the id set, ordered descending by
creation time.  No deleted_at condition appears in this query. -/
def reactionQuery (db : DB) (recipe_ids : List Int) : List ReactionRow :=
  sortBy (fun a b => decide (b.created ≤ a.created))
    (db.reactions.flatMap (fun r =>
      (db.notes.filter
        (fun n => r.note_id == n.id && recipe_ids.contains n.recipe_id)).map (fun _ => r)))

/-- A row of the timeline-event query: event columns plus the
left-joined creating user's email. -/
structure TimelineQueryRow where
  id : Int
  action : String
  created : Int
  created_by_id : Option Int
  email : Option String
deriving DecidableEq

/-- Projection of one timeline event left-joined with its creating
user (absent when the join found no partner). -/
def mkTimelineRow (t : TimelineEventRow) (u : Option UserRow) : TimelineQueryRow :=
  { id := t.id, action := t.action, created := t.created
    created_by_id := t.created_by_id, email := u.map (fun x => x.email) }

/-- LEFT OUTER JOIN of one event against the user table: the matching
user rows, or a single null partner when none match (a null
created_by_id matches nothing). -/
def leftJoinedUsers (db : DB) (created_by_id : Option Int) : List (Option UserRow) :=
  let matching := db.users.filter (fun u => created_by_id == Option.some u.id)
  if matching.isEmpty then [Option.none] else matching.map Option.some

/-- Timeline-event fetch: not soft-deleted, recipe_id in the id set,
LEFT JOIN with the creating user, ordered descending by creation
time. -/
def timelineQuery (db : DB) (recipe_ids : List Int) : List TimelineQueryRow :=
  sortBy (fun a b => decide (b.created ≤ a.created))
    (db.timeline_events.flatMap (fun t =>
      if (t.deleted_at == Option.none) && recipe_ids.contains t.recipe_id then
        (leftJoinedUsers db t.created_by_id).map (mkTimelineRow t)
      else []))

/-! ### Response models

The pydantic classes, declared identically in both files except for
Reaction.created_by_id: int in the async variant, str in the sync
variant.  The reaction identifier type is therefore a parameter β. -/

structure Ingredient where
  id : Int
  position : String
  quantity : String
  name : String
  description : String
deriving DecidableEq

structure Step where
  id : Int
  position : String
  text : String
deriving DecidableEq

structure Reaction (β : Type) where
  id : Int
  emoji : String
  created_by_id : β
deriving DecidableEq

structure Note (β : Type) where
  id : Int
  text : String
  email : String
  name : Option String
  modified_at : Int
  created_at : Int
  reactions : List (Reaction β)
deriving DecidableEq

structure Section where
  id : Int
  title : String
  position : String
deriving DecidableEq

structure TimelineEvent where
  id : Int
  action : String
  created_at : Int
  created_by_id : Option Int
  created_by_name : Option String
deriving DecidableEq

/-- Element of the Recipe.ingredients union list (Ingredient | Section). -/
inductive IngredientOrSection where
  | ing (i : Ingredient)
  | sec (s : Section)
deriving DecidableEq

/-- Element of the Recipe.timeline union list (TimelineEvent | Note). -/
inductive TimelineItem (β : Type) where
  | event (e : TimelineEvent)
  | note (n : Note β)
deriving DecidableEq

structure Recipe (β : Type) where
  id : Int
  name : String
  author : String
  source : String
  time : String
  servings : String
  tags : List String
  archived_at : Option Int
  created_at : Int
  ingredients : List IngredientOrSection
  steps : List Step
  timeline : List (TimelineItem β)
deriving DecidableEq

/-- The position key of a union list element. -/
def IngredientOrSection.position : IngredientOrSection → String
  | .ing i => i.position
  | .sec s => s.position

/-- The creation timestamp of a union list element. -/
def TimelineItem.created_at {β : Type} : TimelineItem β → Int
  | .event e => e.created_at
  | .note n => n.created_at

/-- Rewrites every reaction identifier in a reaction. -/
def Reaction.map {β γ : Type} (f : β → γ) (r : Reaction β) : Reaction γ :=
  ⟨r.id, r.emoji, f r.created_by_id⟩

/-- Rewrites every reaction identifier in a note. -/
def Note.map {β γ : Type} (f : β → γ) (n : Note β) : Note γ :=
  ⟨n.id, n.text, n.email, n.name, n.modified_at, n.created_at,
    n.reactions.map (Reaction.map f)⟩

/-- Rewrites every reaction identifier in a timeline element. -/
def TimelineItem.map {β γ : Type} (f : β → γ) : TimelineItem β → TimelineItem γ
  | .event e => .event e
  | .note n => .note (n.map f)

/-- Rewrites every reaction identifier in a recipe document. -/
def Recipe.map {β γ : Type} (f : β → γ) (r : Recipe β) : Recipe γ :=
  ⟨r.id, r.name, r.author, r.source, r.time, r.servings, r.tags, r.archived_at,
    r.created_at, r.ingredients, r.steps, r.timeline.map (TimelineItem.map f)⟩

/-! ### Assembly

The in-memory loops of both handlers: the two append loops building the
ingredients union list, the defaultdict grouping reactions by note id,
and the two append loops building the timeline union list. -/

/-- defaultdict(list) write: append to the entry for the key, creating
the entry at the end when absent (insertion order is kept). -/
def dictAppend {V : Type} (d : List (Int × List V)) (k : Int) (v : V) :
    List (Int × List V) :=
  match d with
  | [] => [(k, [v])]
  | (k0, vs) :: rest =>
    if k0 == k then (k0, vs ++ [v]) :: rest else (k0, vs) :: dictAppend rest k v

/-- defaultdict(list) read: the entry for the key, or the empty list. -/
def dictLookup {V : Type} (d : List (Int × List V)) (k : Int) : List V :=
  match d with
  | [] => []
  | (k0, vs) :: rest => if k0 == k then vs else dictLookup rest k

/-- The reactions-by-note-id grouping loop, generic in the reaction
constructor used by each variant. -/
def groupReactions {V : Type} (mk : ReactionRow → V) (rows : List ReactionRow) :
    List (Int × List V) :=
  rows.foldl (fun d r => dictAppend d r.note_id (mk r)) []

/-- The async variant's Reaction constructor call (created_by_id kept
as an integer). -/
def async_mkReaction (r : ReactionRow) : Reaction Int :=
  ⟨r.id, r.emoji, r.created_by_id⟩

/-- The sync variant's Reaction constructor call (pydantic coerces the
integer column to its decimal string, the declared field type). -/
def sync_mkReaction (r : ReactionRow) : Reaction String :=
  ⟨r.id, r.emoji, toString r.created_by_id⟩

/-- The async handler's ingredients loops: append an Ingredient per
ingredient row, then a Section per section row. -/
def asyncIngredientsList (ingredient_rows : List IngredientRow)
    (section_rows : List SectionRow) : List IngredientOrSection :=
  let ingredients := ingredient_rows.foldl
    (fun acc i => acc ++
      [IngredientOrSection.ing ⟨i.id, i.position, i.quantity, i.name, i.description⟩]) []
  section_rows.foldl
    (fun acc s => acc ++ [IngredientOrSection.sec ⟨s.id, s.title, s.position⟩]) ingredients

/-- The sync handler's ingredients loops (same code as the async
variant). -/
def syncIngredientsList (ingredient_rows : List IngredientRow)
    (section_rows : List SectionRow) : List IngredientOrSection :=
  let ingredients := ingredient_rows.foldl
    (fun acc i => acc ++
      [IngredientOrSection.ing ⟨i.id, i.position, i.quantity, i.name, i.description⟩]) []
  section_rows.foldl
    (fun acc s => acc ++ [IngredientOrSection.sec ⟨s.id, s.title, s.position⟩]) ingredients

/-- The steps list comprehension (identical in both variants). -/
def stepsList (step_rows : List StepRow) : List Step :=
  step_rows.map (fun s => ⟨s.id, s.position, s.text⟩)

/-- The async handler's timeline loops: group reactions by note id,
append a TimelineEvent per event row, then a Note (carrying its grouped
reactions) per note row. -/
def asyncTimelineList (timeline_rows : List TimelineQueryRow)
    (note_rows : List NoteQueryRow) (reaction_rows : List ReactionRow) :
    List (TimelineItem Int) :=
  let reactions := groupReactions async_mkReaction reaction_rows
  let timeline := timeline_rows.foldl
    (fun acc t => acc ++
      [TimelineItem.event ⟨t.id, t.action, t.created, t.created_by_id, t.email⟩]) []
  note_rows.foldl
    (fun acc n => acc ++
      [TimelineItem.note
        ⟨n.id, n.text, n.email, n.name, n.modified, n.created,
          dictLookup reactions n.id⟩]) timeline

/-- The sync handler's timeline loops (same code, with the sync
Reaction constructor). -/
def syncTimelineList (timeline_rows : List TimelineQueryRow)
    (note_rows : List NoteQueryRow) (reaction_rows : List ReactionRow) :
    List (TimelineItem String) :=
  let reactions := groupReactions sync_mkReaction reaction_rows
  let timeline := timeline_rows.foldl
    (fun acc t => acc ++
      [TimelineItem.event ⟨t.id, t.action, t.created, t.created_by_id, t.email⟩]) []
  note_rows.foldl
    (fun acc n => acc ++
      [TimelineItem.note
        ⟨n.id, n.text, n.email, n.name, n.modified, n.created,
          dictLookup reactions n.id⟩]) timeline

/-! ### Handlers -/

/-- An uncaught Python exception escaping the handler: KeyError from
the cookie dict access, IndexError from recipes[0] on an empty
selection, TypeError from Django's HttpResponse rejecting the
status_code keyword, ValidationError from pydantic rejecting a None
value for the str-typed Recipe.name field. -/
inductive PyError where
  | keyError
  | indexError
  | typeError
  | validationError
deriving DecidableEq

/-- What a handler hands to its framework: a recipe response, the fixed
error response, a bodyless response, or an uncaught exception. -/
inductive Outcome (β : Type) where
  | body (status : Nat) (recipe : Recipe β)
  | errorBody (status : Nat) (message : String)
  | emptyResponse (status : Nat)
  | crash (e : PyError)
deriving DecidableEq

/-- Rewrites every reaction identifier inside an outcome. -/
def Outcome.map {β γ : Type} (f : β → γ) : Outcome β → Outcome γ
  | .body s r => .body s (r.map f)
  | .errorBody s m => .errorBody s m
  | .emptyResponse s => .emptyResponse s
  | .crash e => .crash e

/-- Python dict access on the cookie map: first binding for the key. -/
def lookupCookie : List (String × String) → String → Option String
  | [], _ => Option.none
  | (k, v) :: rest, key => if k == key then Option.some v else lookupCookie rest key

/-- The async handler (homepage in src/async_python/async_serial.py).
shuffle resolves ORDER BY RANDOM(); a missing sessionid cookie raises
KeyError, an empty recipe set raises IndexError at recipes[0], and
Recipe construction raises a pydantic ValidationError when the
last-wins name column (the team's name) is NULL, as it is for every
user-owned recipe.  Starlette's Response and JSONResponse accept the
status_code keyword, so the two 401 branches respond. -/
def homepage (db : DB) (cookies : List (String × String)) (now_utc : Int)
    (shuffle : List RecipeQueryRow → List RecipeQueryRow) : Outcome Int :=
  match lookupCookie cookies "sessionid" with
  | Option.none => Outcome.crash PyError.keyError
  | Option.some session =>
    if session == "" then Outcome.emptyResponse 401
    else
      match sessionQuery db session now_utc with
      | Option.none => Outcome.errorBody 401 "not authed"
      | Option.some user_id =>
        let limit := 1
        let recipes := (shuffle (recipeQuery db user_id)).take limit
        let recipe_ids := recipes.map (fun r => r.id)
        match recipes with
        | [] => Outcome.crash PyError.indexError
        | recipe :: _ =>
          let ingredient_rows := ingredientQuery db recipe_ids
          let step_rows := stepQuery db recipe_ids
          let section_rows := sectionQuery db recipe_ids
          let note_rows := noteQuery db recipe_ids
          let reaction_rows := reactionQuery db recipe_ids
          let timeline_rows := timelineQuery db recipe_ids
          match recipe.name with
          | Option.none => Outcome.crash PyError.validationError
          | Option.some team_name =>
            Outcome.body 200
              ⟨recipe.id, team_name, recipe.author, recipe.source, recipe.time,
                recipe.servings, recipe.tags, recipe.archived_at, recipe.created,
                asyncIngredientsList ingredient_rows section_rows,
                stepsList step_rows,
                asyncTimelineList timeline_rows note_rows reaction_rows⟩

/-- The sync handler (recipes_list in src/sync_python/main.py); same
control flow as homepage with the sync model types, except that both
401 branches call Django's HttpResponse (directly or through
OrJsonResponse) with the status_code keyword, which Django's
HttpResponseBase does not accept — each raises an uncaught
TypeError. -/
def recipes_list (db : DB) (cookies : List (String × String)) (now_utc : Int)
    (shuffle : List RecipeQueryRow → List RecipeQueryRow) : Outcome String :=
  match lookupCookie cookies "sessionid" with
  | Option.none => Outcome.crash PyError.keyError
  | Option.some session =>
    if session == "" then Outcome.crash PyError.typeError
    else
      match sessionQuery db session now_utc with
      | Option.none => Outcome.crash PyError.typeError
      | Option.some user_id =>
        let limit := 1
        let recipes := (shuffle (recipeQuery db user_id)).take limit
        let recipe_ids := recipes.map (fun r => r.id)
        match recipes with
        | [] => Outcome.crash PyError.indexError
        | recipe :: _ =>
          let ingredient_rows := ingredientQuery db recipe_ids
          let step_rows := stepQuery db recipe_ids
          let section_rows := sectionQuery db recipe_ids
          let note_rows := noteQuery db recipe_ids
          let reaction_rows := reactionQuery db recipe_ids
          let timeline_rows := timelineQuery db recipe_ids
          match recipe.name with
          | Option.none => Outcome.crash PyError.validationError
          | Option.some team_name =>
            Outcome.body 200
              ⟨recipe.id, team_name, recipe.author, recipe.source, recipe.time,
                recipe.servings, recipe.tags, recipe.archived_at, recipe.created,
                syncIngredientsList ingredient_rows section_rows,
                stepsList step_rows,
                syncTimelineList timeline_rows note_rows reaction_rows⟩

/-! ### Serialization

orjson.dumps over the pydantic dicts, modelled as JSON text with the
fields in class declaration order.  Each variant serializes
Reaction.created_by_id with its own field type: digits in the async
variant, a quoted decimal string in the sync variant. -/

/-- A JSON string literal (the modelled strings need no escaping). -/
def jsonString (s : String) : String := "\"" ++ s ++ "\""

def jsonOfOptionString : Option String → String
  | Option.none => "null"
  | Option.some s => jsonString s

def jsonOfOptionInt : Option Int → String
  | Option.none => "null"
  | Option.some i => toString i

def jsonArray (items : List String) : String :=
  "[" ++ String.intercalate "," items ++ "]"

def jsonObject (fields : List (String × String)) : String :=
  "\x7b" ++ String.intercalate ","
    (fields.map (fun f => jsonString f.1 ++ ":" ++ f.2)) ++ "\x7d"

def serializeReaction {β : Type} (serId : β → String) (r : Reaction β) : String :=
  jsonObject [("id", toString r.id), ("emoji", jsonString r.emoji),
    ("created_by_id", serId r.created_by_id)]

def serializeNote {β : Type} (serId : β → String) (n : Note β) : String :=
  jsonObject [("id", toString n.id), ("text", jsonString n.text),
    ("email", jsonString n.email), ("name", jsonOfOptionString n.name),
    ("modified_at", toString n.modified_at), ("created_at", toString n.created_at),
    ("reactions", jsonArray (n.reactions.map (serializeReaction serId)))]

def serializeStep (s : Step) : String :=
  jsonObject [("id", toString s.id), ("position", jsonString s.position),
    ("text", jsonString s.text)]

def serializeIngredientOrSection : IngredientOrSection → String
  | .ing i =>
    jsonObject [("id", toString i.id), ("position", jsonString i.position),
      ("quantity", jsonString i.quantity), ("name", jsonString i.name),
      ("description", jsonString i.description)]
  | .sec s =>
    jsonObject [("id", toString s.id), ("title", jsonString s.title),
      ("position", jsonString s.position)]

def serializeTimelineItem {β : Type} (serId : β → String) : TimelineItem β → String
  | .event e =>
    jsonObject [("id", toString e.id), ("action", jsonString e.action),
      ("created_at", toString e.created_at),
      ("created_by_id", jsonOfOptionInt e.created_by_id),
      ("created_by_name", jsonOfOptionString e.created_by_name)]
  | .note n => serializeNote serId n

def serializeRecipe {β : Type} (serId : β → String) (r : Recipe β) : String :=
  jsonObject [("id", toString r.id), ("name", jsonString r.name),
    ("author", jsonString r.author), ("source", jsonString r.source),
    ("time", jsonString r.time), ("servings", jsonString r.servings),
    ("tags", jsonArray (r.tags.map jsonString)),
    ("archived_at", jsonOfOptionInt r.archived_at),
    ("created_at", toString r.created_at),
    ("ingredients", jsonArray (r.ingredients.map serializeIngredientOrSection)),
    ("steps", jsonArray (r.steps.map serializeStep)),
    ("timeline", jsonArray (r.timeline.map (serializeTimelineItem serId)))]

/-- What goes over the wire: status plus serialized body, a bodyless
response, or the uncaught exception reaching the framework. -/
inductive Wire where
  | response (status : Nat) (body : String)
  | empty (status : Nat)
  | exn (e : PyError)
deriving DecidableEq

/-- Serializes an outcome with the given reaction-identifier
serializer. -/
def Outcome.toWire {β : Type} (serId : β → String) : Outcome β → Wire
  | .body s r => .response s (serializeRecipe serId r)
  | .errorBody s msg => .response s (jsonObject [("error", jsonString msg)])
  | .emptyResponse s => .empty s
  | .crash e => .exn e

/-- The async wire observable (integer created_by_id → digits). -/
def asyncWire (db : DB) (cookies : List (String × String)) (now_utc : Int)
    (shuffle : List RecipeQueryRow → List RecipeQueryRow) : Wire :=
  (homepage db cookies now_utc shuffle).toWire (fun n => toString n)

/-- The sync wire observable (string created_by_id → quoted string). -/
def syncWire (db : DB) (cookies : List (String × String)) (now_utc : Int)
    (shuffle : List RecipeQueryRow → List RecipeQueryRow) : Wire :=
  (recipes_list db cookies now_utc shuffle).toWire jsonString

/-! ### Named images of the assembly loops -/

/-- The Ingredient object built from one ingredient row. -/
def mkIngredientItem (i : IngredientRow) : IngredientOrSection :=
  .ing ⟨i.id, i.position, i.quantity, i.name, i.description⟩

/-- The Section object built from one section row. -/
def mkSectionItem (s : SectionRow) : IngredientOrSection :=
  .sec ⟨s.id, s.title, s.position⟩

/-- The TimelineEvent object built from one timeline query row. -/
def mkEventItem {β : Type} (t : TimelineQueryRow) : TimelineItem β :=
  .event ⟨t.id, t.action, t.created, t.created_by_id, t.email⟩

/-- The async Note object built from one note query row, carrying its
grouped reactions. -/
def asyncNoteItem (rrows : List ReactionRow) (n : NoteQueryRow) : TimelineItem Int :=
  .note ⟨n.id, n.text, n.email, n.name, n.modified, n.created,
    (rrows.filter (fun r => r.note_id == n.id)).map async_mkReaction⟩

/-- The sync Note object built from one note query row, carrying its
grouped reactions. -/
def syncNoteItem (rrows : List ReactionRow) (n : NoteQueryRow) : TimelineItem String :=
  .note ⟨n.id, n.text, n.email, n.name, n.modified, n.created,
    (rrows.filter (fun r => r.note_id == n.id)).map sync_mkReaction⟩

/-! ### Concrete fixtures used by counterexamples and witnesses -/

/-- A resolution of ORDER BY RANDOM() that keeps the query order. -/
def idShuffle : List RecipeQueryRow → List RecipeQueryRow := fun l => l

/-- A database with no rows at all. -/
def dbEmpty : DB := ⟨[], [], [], [], [], [], [], [], [], [], []⟩

def rowIng : IngredientRow := ⟨100, "b", "1", "salt", "", 10, Option.none⟩

def rowStep : StepRow := ⟨600, "mix", "a", 10, Option.none⟩

def rowSec : SectionRow := ⟨200, "top", "a", 10, Option.none⟩

def rowNote : NoteRow := ⟨300, "hi", 60, 55, 10, Option.none, 1, Option.none⟩

def rowReact : ReactionRow := ⟨400, 70, 70, "+1", 7, 300⟩

def rowEvent : TimelineEventRow := ⟨500, "created", 52, Option.some 1, 10, Option.none⟩

/-- One user, one session, one user-owned recipe with a full set of
related rows: every fetch returns one row. -/
def dbHappy : DB :=
  { sessions := [⟨"tok", 1, 200⟩]
    recipes := [⟨10, "r", "a", "s", "t", "sv", 0, 0, 50, Option.none, ["x"],
      Option.none, 1, 1⟩]
    users := [⟨1, "u@x", Option.none⟩]
    teams := []
    memberships := []
    ingredients := [rowIng]
    steps := [rowStep]
    sections := [rowSec]
    notes := [rowNote]
    reactions := [rowReact]
    timeline_events := [rowEvent] }

/-- The row the note query produces in dbHappy. -/
def rowNoteQ : NoteQueryRow :=
  ⟨300, "hi", 60, 55, 10, Option.none, "u@x", Option.none, 1⟩

/-- The row the timeline-event query produces in dbHappy. -/
def rowTimelineQ : TimelineQueryRow :=
  ⟨500, "created", 52, Option.some 1, Option.some "u@x"⟩

/-- The async Note object assembled for dbHappy's note. -/
def noteItemHappy : Note Int :=
  ⟨300, "hi", "u@x", Option.none, 60, 55, [⟨400, "+1", 7⟩]⟩

/-- The sync Note object assembled for dbHappy's note (reaction
created_by_id coerced to its decimal string). -/
def noteItemHappySync : Note String :=
  ⟨300, "hi", "u@x", Option.none, 60, 55, [⟨400, "+1", "7"⟩]⟩

/-- dbHappy with the recipe owned by team 5 instead of the user
(content_type 20, active membership): the team join matches, so the
last-wins name column is the team's name and Recipe validation
succeeds. -/
def dbTeamHappy : DB :=
  { sessions := [⟨"tok", 1, 200⟩]
    recipes := [⟨10, "r", "a", "s", "t", "sv", 0, 0, 50, Option.none, ["x"],
      Option.none, 5, 20⟩]
    users := [⟨1, "u@x", Option.none⟩]
    teams := [⟨5, "team a"⟩]
    memberships := [⟨1, 5, true⟩]
    ingredients := [rowIng]
    steps := [rowStep]
    sections := [rowSec]
    notes := [rowNote]
    reactions := [rowReact]
    timeline_events := [rowEvent] }

/-- A valid session for a user who owns no recipe. -/
def dbNoRecipes : DB :=
  { sessions := [⟨"tok", 1, 200⟩]
    recipes := []
    users := [⟨1, "u@x", Option.none⟩]
    teams := []
    memberships := []
    ingredients := []
    steps := []
    sections := []
    notes := []
    reactions := []
    timeline_events := [] }

/-- A live note whose creating user id (99) matches no user row. -/
def orphanNote : NoteRow := ⟨300, "hi", 60, 55, 10, Option.none, 99, Option.none⟩

/-- dbTeamHappy's team-owned recipe with a single non-deleted note
whose creator row is missing, and no other related rows (team
ownership keeps Recipe validation off the NULL-name path, isolating
the join's behavior). -/
def dbOrphanNote : DB :=
  { sessions := [⟨"tok", 1, 200⟩]
    recipes := [⟨10, "r", "a", "s", "t", "sv", 0, 0, 50, Option.none, ["x"],
      Option.none, 5, 20⟩]
    users := [⟨1, "u@x", Option.none⟩]
    teams := [⟨5, "team a"⟩]
    memberships := [⟨1, 5, true⟩]
    ingredients := []
    steps := []
    sections := []
    notes := [orphanNote]
    reactions := []
    timeline_events := [] }

/-- An ingredient row at position a (for sortedness witnesses). -/
def ingPosA : IngredientRow := ⟨101, "a", "2", "oil", "", 10, Option.none⟩

/-- A section row at position b (for sortedness witnesses). -/
def secPosB : SectionRow := ⟨201, "bottom", "b", 10, Option.none⟩

/-- A timeline query row created at time 0. -/
def evRow0 : TimelineQueryRow := ⟨500, "created", 0, Option.none, Option.none⟩

/-- A note query row created at time 5, later than evRow0. -/
def noteRow5 : NoteQueryRow :=
  ⟨300, "hi", 6, 5, 10, Option.none, "u@x", Option.none, 1⟩

/-! ### Helper lemmas: sorting -/

theorem mem_insertSorted {α : Type} (le : α → α → Bool) (x y : α) (l : List α) :
    x ∈ insertSorted le y l ↔ x = y ∨ x ∈ l := by
  induction l with
  | nil => simp [insertSorted]
  | cons a as ih =>
    simp only [insertSorted]
    split
    · simp
    · simp [ih]
      tauto

theorem mem_sortBy {α : Type} (le : α → α → Bool) (x : α) (l : List α) :
    x ∈ sortBy le l ↔ x ∈ l := by
  induction l with
  | nil => simp [sortBy]
  | cons a as ih => simp [sortBy, mem_insertSorted, ih]

theorem sortedBy_cons {α : Type} (le : α → α → Bool) (x : α) (l : List α) :
    sortedBy le (x :: l) = true ↔
      (∀ y, l.head? = some y → le x y = true) ∧ sortedBy le l = true := by
  cases l with
  | nil => simp [sortedBy]
  | cons b bs => simp [sortedBy, Bool.and_eq_true]

theorem sortedBy_append {α : Type} (le : α → α → Bool) (xs ys : List α)
    (hxs : sortedBy le xs = true) (hys : sortedBy le ys = true)
    (hcross : ∀ x ∈ xs, ∀ y ∈ ys, le x y = true) :
    sortedBy le (xs ++ ys) = true := by
  induction xs with
  | nil => simpa using hys
  | cons a as ih =>
    have has : sortedBy le as = true := ((sortedBy_cons le a as).mp hxs).2
    have htail : sortedBy le (as ++ ys) = true :=
      ih has (fun x hx y hy => hcross x (List.mem_cons_of_mem a hx) y hy)
    rw [List.cons_append, sortedBy_cons]
    refine ⟨?_, htail⟩
    intro y hy
    rcases as with _ | ⟨c, cs⟩
    · simp only [List.nil_append] at hy
      exact hcross a (by simp) y (List.mem_of_mem_head? hy)
    · simp only [List.cons_append, List.head?_cons, Option.some.injEq] at hy
      exact hy ▸ ((sortedBy_cons le a (c :: cs)).mp hxs).1 c (by simp)

theorem sortedBy_map {α γ : Type} (le : α → α → Bool) (le2 : γ → γ → Bool)
    (f : α → γ) (l : List α)
    (hmono : ∀ a b, le a b = true → le2 (f a) (f b) = true)
    (hl : sortedBy le l = true) : sortedBy le2 (l.map f) = true := by
  induction l with
  | nil => simp [sortedBy]
  | cons a as ih =>
    cases as with
    | nil => simp [sortedBy]
    | cons b bs =>
      simp only [sortedBy, Bool.and_eq_true] at hl
      have := ih hl.2
      simp only [List.map_cons, sortedBy, Bool.and_eq_true]
      exact ⟨hmono a b hl.1, by simpa using this⟩

/-! ### Helper lemmas: loops and grouping -/

theorem foldl_append_map {α γ : Type} (l : List α) (f : α → γ) (init : List γ) :
    l.foldl (fun acc x => acc ++ [f x]) init = init ++ l.map f := by
  induction l generalizing init with
  | nil => simp
  | cons a as ih => simp [ih]

theorem dictLookup_dictAppend {V : Type} (d : List (Int × List V)) (k k2 : Int) (v : V) :
    dictLookup (dictAppend d k v) k2 =
      dictLookup d k2 ++ (if k == k2 then [v] else []) := by
  induction d with
  | nil =>
    simp only [dictAppend, dictLookup]
    by_cases h : k = k2 <;> simp [h]
  | cons p rest ih =>
    obtain ⟨k0, vs⟩ := p
    simp only [dictAppend]
    by_cases h0 : k0 = k
    · subst h0
      simp only [beq_self_eq_true, if_true, dictLookup]
      by_cases h2 : k0 = k2 <;> simp [dictLookup, h2]
    · have hbeq : (k0 == k) = false := by simp [h0]
      simp only [hbeq, Bool.false_eq_true, if_false, dictLookup]
      by_cases h2 : k0 = k2
      · subst h2
        have hne : ¬k = k0 := fun hk => h0 hk.symm
        simp [dictLookup, ih, hne]
      · simp [dictLookup, h2, ih]

theorem dictLookup_foldl {V : Type} (mk : ReactionRow → V) (rows : List ReactionRow)
    (d : List (Int × List V)) (k : Int) :
    dictLookup (rows.foldl (fun d r => dictAppend d r.note_id (mk r)) d) k =
      dictLookup d k ++ (rows.filter (fun r => r.note_id == k)).map mk := by
  induction rows generalizing d with
  | nil => simp
  | cons r rest ih =>
    simp only [List.foldl_cons, ih, List.filter_cons]
    by_cases h : r.note_id = k
    · simp [dictLookup_dictAppend, h]
    · have hf : (r.note_id == k) = false := by simp [h]
      simp [dictLookup_dictAppend, hf]

/-- The defaultdict grouping reproduces, for every key, the filter of
the fetched rows by that key, in fetch order. -/
theorem dictLookup_groupReactions {V : Type} (mk : ReactionRow → V)
    (rows : List ReactionRow) (k : Int) :
    dictLookup (groupReactions mk rows) k =
      (rows.filter (fun r => r.note_id == k)).map mk := by
  simp [groupReactions, dictLookup_foldl, dictLookup]

/-! ### Helper lemmas: assembly characterizations -/

theorem asyncIngredientsList_eq (irows : List IngredientRow) (srows : List SectionRow) :
    asyncIngredientsList irows srows =
      irows.map mkIngredientItem ++ srows.map mkSectionItem := by
  simp only [asyncIngredientsList, foldl_append_map, List.nil_append]
  rfl

theorem syncIngredientsList_eq_async (irows : List IngredientRow) (srows : List SectionRow) :
    syncIngredientsList irows srows = asyncIngredientsList irows srows := rfl

theorem asyncTimelineList_eq (trows : List TimelineQueryRow)
    (nrows : List NoteQueryRow) (rrows : List ReactionRow) :
    asyncTimelineList trows nrows rrows =
      trows.map mkEventItem ++ nrows.map (asyncNoteItem rrows) := by
  simp only [asyncTimelineList, foldl_append_map, List.nil_append,
    dictLookup_groupReactions]
  rfl

theorem syncTimelineList_eq (trows : List TimelineQueryRow)
    (nrows : List NoteQueryRow) (rrows : List ReactionRow) :
    syncTimelineList trows nrows rrows =
      trows.map mkEventItem ++ nrows.map (syncNoteItem rrows) := by
  simp only [syncTimelineList, foldl_append_map, List.nil_append,
    dictLookup_groupReactions]
  rfl

theorem mapToString_mkEventItem (t : TimelineQueryRow) :
    TimelineItem.map toString (mkEventItem t : TimelineItem Int) = mkEventItem t := rfl

theorem mapToString_asyncNoteItem (rrows : List ReactionRow) (n : NoteQueryRow) :
    TimelineItem.map toString (asyncNoteItem rrows n) = syncNoteItem rrows n := by
  simp [TimelineItem.map, asyncNoteItem, syncNoteItem, Note.map, Reaction.map,
    async_mkReaction, sync_mkReaction, List.map_map, Function.comp_def]

theorem syncTimelineList_eq_map (trows : List TimelineQueryRow)
    (nrows : List NoteQueryRow) (rrows : List ReactionRow) :
    syncTimelineList trows nrows rrows =
      (asyncTimelineList trows nrows rrows).map (TimelineItem.map toString) := by
  rw [asyncTimelineList_eq, syncTimelineList_eq, List.map_append, List.map_map,
    List.map_map]
  simp only [Function.comp_def, mapToString_mkEventItem, mapToString_asyncNoteItem]

/-! ### Helper lemmas: query membership characterizations -/

theorem mem_ingredientQuery (db : DB) (recipe_ids : List Int) (r : IngredientRow) :
    r ∈ ingredientQuery db recipe_ids ↔
      r ∈ db.ingredients ∧ r.deleted_at = Option.none ∧ r.recipe_id ∈ recipe_ids := by
  simp [ingredientQuery, mem_sortBy, List.mem_filter, List.elem_iff, and_assoc]

theorem mem_stepQuery (db : DB) (recipe_ids : List Int) (r : StepRow) :
    r ∈ stepQuery db recipe_ids ↔
      r ∈ db.steps ∧ r.deleted_at = Option.none ∧ r.recipe_id ∈ recipe_ids := by
  simp [stepQuery, mem_sortBy, List.mem_filter, List.elem_iff, and_assoc]

theorem mem_sectionQuery (db : DB) (recipe_ids : List Int) (r : SectionRow) :
    r ∈ sectionQuery db recipe_ids ↔
      r ∈ db.sections ∧ r.deleted_at = Option.none ∧ r.recipe_id ∈ recipe_ids := by
  simp [sectionQuery, mem_sortBy, List.mem_filter, List.elem_iff, and_assoc]

theorem mem_noteQuery (db : DB) (recipe_ids : List Int) (r : NoteQueryRow) :
    r ∈ noteQuery db recipe_ids ↔
      ∃ n ∈ db.notes, n.deleted_at = Option.none ∧ n.recipe_id ∈ recipe_ids ∧
        ∃ u ∈ db.users, n.created_by_id = u.id ∧ r = mkNoteRow n u := by
  simp only [noteQuery, mem_sortBy, List.mem_flatMap]
  constructor
  · rintro ⟨n, hn, hr⟩
    by_cases hc : (n.deleted_at == Option.none) && recipe_ids.contains n.recipe_id
    · rw [if_pos hc] at hr
      simp only [List.mem_map, List.mem_filter] at hr
      obtain ⟨u, ⟨hu, hcb⟩, hmk⟩ := hr
      simp only [Bool.and_eq_true, beq_iff_eq, List.elem_iff] at hc hcb
      exact ⟨n, hn, hc.1, hc.2, u, hu, hcb, hmk.symm⟩
    · rw [if_neg hc] at hr
      simp at hr
  · rintro ⟨n, hn, hdel, hrid, u, hu, hcb, hmk⟩
    refine ⟨n, hn, ?_⟩
    rw [if_pos (by simp [hdel, List.elem_iff, hrid])]
    simp only [List.mem_map, List.mem_filter]
    exact ⟨u, ⟨hu, by simp [hcb]⟩, hmk.symm⟩

theorem mem_reactionQuery (db : DB) (recipe_ids : List Int) (r : ReactionRow) :
    r ∈ reactionQuery db recipe_ids ↔
      r ∈ db.reactions ∧ ∃ n ∈ db.notes, r.note_id = n.id ∧ n.recipe_id ∈ recipe_ids := by
  simp only [reactionQuery, mem_sortBy, List.mem_flatMap]
  constructor
  · rintro ⟨x, hx, hr⟩
    simp only [List.mem_map, List.mem_filter] at hr
    obtain ⟨n, ⟨hn, hcond⟩, hxr⟩ := hr
    subst hxr
    simp only [Bool.and_eq_true, beq_iff_eq, List.elem_iff] at hcond
    exact ⟨hx, n, hn, hcond.1, hcond.2⟩
  · rintro ⟨hx, n, hn, hid, hrid⟩
    refine ⟨r, hx, ?_⟩
    simp only [List.mem_map, List.mem_filter]
    exact ⟨n, ⟨hn, by simp [hid, List.elem_iff, hrid]⟩, trivial⟩

theorem mem_timelineQuery (db : DB) (recipe_ids : List Int) (r : TimelineQueryRow) :
    r ∈ timelineQuery db recipe_ids ↔
      ∃ t ∈ db.timeline_events, t.deleted_at = Option.none ∧ t.recipe_id ∈ recipe_ids ∧
        ∃ u ∈ leftJoinedUsers db t.created_by_id, r = mkTimelineRow t u := by
  simp only [timelineQuery, mem_sortBy, List.mem_flatMap]
  constructor
  · rintro ⟨t, ht, hr⟩
    by_cases hc : (t.deleted_at == Option.none) && recipe_ids.contains t.recipe_id
    · rw [if_pos hc] at hr
      simp only [List.mem_map] at hr
      obtain ⟨u, hu, hmk⟩ := hr
      simp only [Bool.and_eq_true, beq_iff_eq, List.elem_iff] at hc
      exact ⟨t, ht, hc.1, hc.2, u, hu, hmk.symm⟩
    · rw [if_neg hc] at hr
      simp at hr
  · rintro ⟨t, ht, hdel, hrid, u, hu, hmk⟩
    refine ⟨t, ht, ?_⟩
    rw [if_pos (by simp [hdel, List.elem_iff, hrid])]
    simp only [List.mem_map]
    exact ⟨u, hu, hmk.symm⟩

/-! ### Helper lemmas: the two handlers agree up to the reaction
identifier type -/

/-- Missing sessionid cookie: both handlers raise KeyError. -/
theorem handlers_no_cookie (db : DB) (cookies : List (String × String))
    (now_utc : Int) (shuffle : List RecipeQueryRow → List RecipeQueryRow)
    (h : lookupCookie cookies "sessionid" = Option.none) :
    homepage db cookies now_utc shuffle = Outcome.crash PyError.keyError ∧
    recipes_list db cookies now_utc shuffle = Outcome.crash PyError.keyError := by
  unfold homepage recipes_list
  rw [h]
  exact ⟨rfl, rfl⟩

/-- Empty sessionid: async responds with a bodyless 401, sync raises
TypeError in the Django HttpResponse constructor. -/
theorem handlers_empty_session (db : DB) (cookies : List (String × String))
    (now_utc : Int) (shuffle : List RecipeQueryRow → List RecipeQueryRow)
    (h : lookupCookie cookies "sessionid" = Option.some "") :
    homepage db cookies now_utc shuffle = Outcome.emptyResponse 401 ∧
    recipes_list db cookies now_utc shuffle = Outcome.crash PyError.typeError := by
  unfold homepage recipes_list
  rw [h]
  exact ⟨rfl, rfl⟩

/-- Failed session lookup: async responds 401 with the fixed JSON
body, sync raises TypeError in the OrJsonResponse constructor. -/
theorem handlers_bad_session (db : DB) (cookies : List (String × String))
    (now_utc : Int) (shuffle : List RecipeQueryRow → List RecipeQueryRow)
    (session : String) (h : lookupCookie cookies "sessionid" = Option.some session)
    (hne : session ≠ "") (hq : sessionQuery db session now_utc = Option.none) :
    homepage db cookies now_utc shuffle = Outcome.errorBody 401 "not authed" ∧
    recipes_list db cookies now_utc shuffle = Outcome.crash PyError.typeError := by
  have hsb : (session == "") = false := by simp [hne]
  unfold homepage recipes_list
  rw [h]
  simp [hsb, hq]

/-- On authenticated requests (cookie found, non-empty, lookup
succeeded) the two handlers take the same path and the sync outcome is
the async outcome with the reaction identifiers rendered as strings
(both crash identically at recipes[0] on an empty selection and in
Recipe validation on a NULL name). -/
theorem recipes_list_eq_map_homepage_of_authed (db : DB)
    (cookies : List (String × String)) (now_utc : Int)
    (shuffle : List RecipeQueryRow → List RecipeQueryRow)
    (session : String) (user_id : Int)
    (h : lookupCookie cookies "sessionid" = Option.some session)
    (hne : session ≠ "")
    (hq : sessionQuery db session now_utc = Option.some user_id) :
    recipes_list db cookies now_utc shuffle =
      Outcome.map toString (homepage db cookies now_utc shuffle) := by
  have hsb : (session == "") = false := by simp [hne]
  unfold recipes_list homepage
  rw [h]
  simp only [hsb, Bool.false_eq_true, if_false, hq]
  split
  · rfl
  next recipe rest heq =>
    split
    · rfl
    next team_name hname =>
      simp [Outcome.map, Recipe.map, syncTimelineList_eq_map,
        syncIngredientsList_eq_async]

/-! ### Claims -/

set_option maxRecDepth 100000 in
/-- C1, counterexample: the two handlers are not functionally
identical.  On a database whose team-owned recipe has one note with one
reaction (created_by_id 7), the same cookie map, clock, database state
and random resolution produce different 200 response bodies: the async
variant serializes Reaction.created_by_id as the number 7, the sync
variant (whose pydantic field is typed str) as the string "7".  And on
an empty-string sessionid cookie the async variant answers a bodyless
401 while the sync variant raises TypeError (Django's HttpResponse
takes status, not status_code). -/
theorem C1_wire_bodies_differ :
    asyncWire dbTeamHappy [("sessionid", "tok")] 100 idShuffle ≠
      syncWire dbTeamHappy [("sessionid", "tok")] 100 idShuffle ∧
    asyncWire dbTeamHappy [("sessionid", "")] 100 idShuffle = Wire.empty 401 ∧
    syncWire dbTeamHappy [("sessionid", "")] 100 idShuffle =
      Wire.exn PyError.typeError := by decide

/-- C1, amended: the handlers agree only case by case.  A missing
sessionid cookie raises KeyError in both.  On an empty-string
sessionid the async variant answers a bodyless 401 while the sync
variant raises TypeError; on a failed session lookup the async variant
answers 401 with the fixed JSON body while the sync variant raises
TypeError (Django's HttpResponse rejects the status_code keyword).  On
authenticated requests (cookie found, non-empty, lookup succeeded) the
sync outcome is the async outcome with each reaction's integer
created_by_id replaced by its decimal string rendering — statuses and
every other field coincide, including the identical IndexError on an
empty selection and the identical pydantic ValidationError on a
user-owned recipe's NULL name column. -/
theorem C1_handlers_agree_case_by_case (db : DB)
    (cookies : List (String × String)) (now_utc : Int)
    (shuffle : List RecipeQueryRow → List RecipeQueryRow) :
    (lookupCookie cookies "sessionid" = Option.none →
      homepage db cookies now_utc shuffle = Outcome.crash PyError.keyError ∧
      recipes_list db cookies now_utc shuffle = Outcome.crash PyError.keyError) ∧
    (lookupCookie cookies "sessionid" = Option.some "" →
      homepage db cookies now_utc shuffle = Outcome.emptyResponse 401 ∧
      recipes_list db cookies now_utc shuffle = Outcome.crash PyError.typeError) ∧
    (∀ session, lookupCookie cookies "sessionid" = Option.some session →
      session ≠ "" → sessionQuery db session now_utc = Option.none →
      homepage db cookies now_utc shuffle = Outcome.errorBody 401 "not authed" ∧
      recipes_list db cookies now_utc shuffle = Outcome.crash PyError.typeError) ∧
    (∀ session user_id, lookupCookie cookies "sessionid" = Option.some session →
      session ≠ "" → sessionQuery db session now_utc = Option.some user_id →
      recipes_list db cookies now_utc shuffle =
        Outcome.map toString (homepage db cookies now_utc shuffle)) :=
  ⟨fun h => handlers_no_cookie db cookies now_utc shuffle h,
    fun h => handlers_empty_session db cookies now_utc shuffle h,
    fun session h hne hq =>
      handlers_bad_session db cookies now_utc shuffle session h hne hq,
    fun session user_id h hne hq =>
      recipes_list_eq_map_homepage_of_authed db cookies now_utc shuffle
        session user_id h hne hq⟩

set_option maxRecDepth 100000 in
/-- C1, witness for the amended theorem: each of the four cases at a
concrete input — no cookie, empty cookie, unknown token, and an
authenticated request against the team-owned database. -/
theorem C1_handlers_agree_witness :
    (homepage dbEmpty [] 0 idShuffle = Outcome.crash PyError.keyError ∧
      recipes_list dbEmpty [] 0 idShuffle = Outcome.crash PyError.keyError) ∧
    (homepage dbEmpty [("sessionid", "")] 0 idShuffle = Outcome.emptyResponse 401 ∧
      recipes_list dbEmpty [("sessionid", "")] 0 idShuffle =
        Outcome.crash PyError.typeError) ∧
    (homepage dbEmpty [("sessionid", "zzz")] 0 idShuffle =
        Outcome.errorBody 401 "not authed" ∧
      recipes_list dbEmpty [("sessionid", "zzz")] 0 idShuffle =
        Outcome.crash PyError.typeError) ∧
    recipes_list dbTeamHappy [("sessionid", "tok")] 100 idShuffle =
      Outcome.map toString (homepage dbTeamHappy [("sessionid", "tok")] 100 idShuffle) :=
  ⟨(C1_handlers_agree_case_by_case dbEmpty [] 0 idShuffle).1 rfl,
    (C1_handlers_agree_case_by_case dbEmpty [("sessionid", "")] 0 idShuffle).2.1 rfl,
    (C1_handlers_agree_case_by_case dbEmpty [("sessionid", "zzz")] 0 idShuffle).2.2.1
      "zzz" rfl (by decide) rfl,
    (C1_handlers_agree_case_by_case dbTeamHappy [("sessionid", "tok")] 100
      idShuffle).2.2.2 "tok" 1 rfl (by decide) (by decide)⟩

/-- C2, counterexample: with an ingredient list sorted ascending by
position (single element at position b) and a section list sorted
ascending by position (single element at position a), the assembled
ingredients list of both variants is b then a, which is not sorted
ascending by position. -/
theorem C2_concat_not_sorted :
    sortedBy (fun a b => strLe a.position b.position) [rowIng] = true ∧
    sortedBy (fun a b => strLe a.position b.position) [rowSec] = true ∧
    sortedBy (fun a b => strLe a.position b.position)
      (asyncIngredientsList [rowIng] [rowSec]) = false ∧
    sortedBy (fun a b => strLe a.position b.position)
      (syncIngredientsList [rowIng] [rowSec]) = false := by decide

/-- C2, amended: the assembled ingredients list is sorted ascending by
position in both variants when, in addition to each fetched list being
sorted, every ingredient's position is lexicographically at most every
section's position (the assembly concatenates the two sorted segments
and never interleaves them). -/
theorem C2_sorted_given_cross_bound (irows : List IngredientRow)
    (srows : List SectionRow)
    (hi : sortedBy (fun a b => strLe a.position b.position) irows = true)
    (hs : sortedBy (fun a b => strLe a.position b.position) srows = true)
    (hcross : ∀ i ∈ irows, ∀ s ∈ srows, strLe i.position s.position = true) :
    sortedBy (fun a b => strLe a.position b.position)
        (asyncIngredientsList irows srows) = true ∧
    sortedBy (fun a b => strLe a.position b.position)
        (syncIngredientsList irows srows) = true := by
  have hmain : sortedBy (fun a b => strLe a.position b.position)
      (asyncIngredientsList irows srows) = true := by
    rw [asyncIngredientsList_eq]
    apply sortedBy_append
    · exact sortedBy_map _ _ _ _ (fun a b h => h) hi
    · exact sortedBy_map _ _ _ _ (fun a b h => h) hs
    · intro x hx y hy
      simp only [List.mem_map] at hx hy
      obtain ⟨i, hi2, rfl⟩ := hx
      obtain ⟨s, hs2, rfl⟩ := hy
      exact hcross i hi2 s hs2
  exact ⟨hmain, by rw [syncIngredientsList_eq_async]; exact hmain⟩

/-- C2, witness for the amended theorem at a concrete input: one
ingredient at position a, one section at position b. -/
theorem C2_sorted_witness :
    sortedBy (fun a b => strLe a.position b.position)
        (asyncIngredientsList [ingPosA] [secPosB]) = true ∧
    sortedBy (fun a b => strLe a.position b.position)
        (syncIngredientsList [ingPosA] [secPosB]) = true :=
  C2_sorted_given_cross_bound [ingPosA] [secPosB] (by decide) (by decide) (by decide)

/-- C3, counterexample: with a timeline-event list sorted descending by
creation time (single event created at 0) and a note list sorted
descending by creation time (single note created at 5), the assembled
timeline of both variants is the event then the newer note, which is
not sorted descending by creation timestamp. -/
theorem C3_concat_not_sorted :
    sortedBy (fun a b => decide (b.created ≤ a.created)) [evRow0] = true ∧
    sortedBy (fun a b => decide (b.created ≤ a.created)) [noteRow5] = true ∧
    sortedBy (fun a b => decide (b.created_at ≤ a.created_at))
      (asyncTimelineList [evRow0] [noteRow5] []) = false ∧
    sortedBy (fun a b => decide (b.created_at ≤ a.created_at))
      (syncTimelineList [evRow0] [noteRow5] []) = false := by decide

/-- C3, amended: the assembled timeline is sorted descending by
creation timestamp in both variants when, in addition to each fetched
list being sorted descending, no note is newer than any timeline event
(the assembly concatenates the two sorted segments, events first, and
never interleaves them). -/
theorem C3_sorted_given_cross_bound (trows : List TimelineQueryRow)
    (nrows : List NoteQueryRow) (rrows : List ReactionRow)
    (ht : sortedBy (fun a b => decide (b.created ≤ a.created)) trows = true)
    (hn : sortedBy (fun a b => decide (b.created ≤ a.created)) nrows = true)
    (hcross : ∀ t ∈ trows, ∀ n ∈ nrows, n.created ≤ t.created) :
    sortedBy (fun a b => decide (b.created_at ≤ a.created_at))
        (asyncTimelineList trows nrows rrows) = true ∧
    sortedBy (fun a b => decide (b.created_at ≤ a.created_at))
        (syncTimelineList trows nrows rrows) = true := by
  constructor
  · rw [asyncTimelineList_eq]
    apply sortedBy_append
    · exact sortedBy_map _ _ _ _ (fun a b h => h) ht
    · exact sortedBy_map _ _ _ _ (fun a b h => h) hn
    · intro x hx y hy
      simp only [List.mem_map] at hx hy
      obtain ⟨t, ht2, rfl⟩ := hx
      obtain ⟨n, hn2, rfl⟩ := hy
      exact decide_eq_true (hcross t ht2 n hn2)
  · rw [syncTimelineList_eq]
    apply sortedBy_append
    · exact sortedBy_map _ _ _ _ (fun a b h => h) ht
    · exact sortedBy_map _ _ _ _ (fun a b h => h) hn
    · intro x hx y hy
      simp only [List.mem_map] at hx hy
      obtain ⟨t, ht2, rfl⟩ := hx
      obtain ⟨n, hn2, rfl⟩ := hy
      exact decide_eq_true (hcross t ht2 n hn2)

/-- C3, witness for the amended theorem at a concrete input: one event
created at 52, one older note created at 5, one reaction row. -/
theorem C3_sorted_witness :
    sortedBy (fun a b => decide (b.created_at ≤ a.created_at))
        (asyncTimelineList [rowTimelineQ] [noteRow5] [rowReact]) = true ∧
    sortedBy (fun a b => decide (b.created_at ≤ a.created_at))
        (syncTimelineList [rowTimelineQ] [noteRow5] [rowReact]) = true :=
  C3_sorted_given_cross_bound [rowTimelineQ] [noteRow5] [rowReact]
    (by decide) (by decide) (by decide)

/-- C4, counterexample: none of the three failure cases behaves as
claimed.  A request whose cookie map lacks a sessionid entry makes
both handlers raise an uncaught KeyError instead of returning the
fixed 401 JSON body, and in the sync variant the empty-sessionid and
failed-lookup branches raise an uncaught TypeError (Django's
HttpResponse and OrJsonResponse reject the status_code keyword), so
the sync handler never returns any 401 at all. -/
theorem C4_missing_cookie_crashes :
    homepage dbEmpty [] 0 idShuffle = Outcome.crash PyError.keyError ∧
    recipes_list dbEmpty [] 0 idShuffle = Outcome.crash PyError.keyError ∧
    homepage dbEmpty [] 0 idShuffle ≠ Outcome.errorBody 401 "not authed" ∧
    recipes_list dbEmpty [("sessionid", "")] 0 idShuffle =
      Outcome.crash PyError.typeError ∧
    recipes_list dbEmpty [("sessionid", "zzz")] 0 idShuffle =
      Outcome.crash PyError.typeError := by
  refine ⟨rfl, rfl, by decide, rfl, rfl⟩

/-- C4, amended: the three failure paths neither share one body nor
avoid unhandled exceptions.  A cookie map without a sessionid entry
makes both handlers raise KeyError.  A sessionid equal to the empty
string yields a bodyless 401 in the async variant but an uncaught
TypeError in the sync variant.  A non-empty sessionid whose session
lookup finds no non-expired matching record yields 401 with the JSON
body error: not authed in the async variant but an uncaught TypeError
in the sync variant (Django's HttpResponse takes status, not
status_code). -/
theorem C4_three_failure_paths (db : DB) (cookies : List (String × String))
    (now_utc : Int) (shuffle : List RecipeQueryRow → List RecipeQueryRow) :
    (lookupCookie cookies "sessionid" = Option.none →
      homepage db cookies now_utc shuffle = Outcome.crash PyError.keyError ∧
      recipes_list db cookies now_utc shuffle = Outcome.crash PyError.keyError) ∧
    (lookupCookie cookies "sessionid" = Option.some "" →
      homepage db cookies now_utc shuffle = Outcome.emptyResponse 401 ∧
      recipes_list db cookies now_utc shuffle = Outcome.crash PyError.typeError) ∧
    (∀ session, lookupCookie cookies "sessionid" = Option.some session →
      session ≠ "" → sessionQuery db session now_utc = Option.none →
      homepage db cookies now_utc shuffle = Outcome.errorBody 401 "not authed" ∧
      recipes_list db cookies now_utc shuffle = Outcome.crash PyError.typeError) := by
  refine ⟨?_, ?_, ?_⟩
  · intro h
    unfold homepage recipes_list
    rw [h]
    exact ⟨rfl, rfl⟩
  · intro h
    unfold homepage recipes_list
    rw [h]
    exact ⟨rfl, rfl⟩
  · intro session h hne hq
    have hsb : (session == "") = false := by simp [hne]
    unfold homepage recipes_list
    rw [h]
    simp [hsb, hq]

/-- C4, witness: the amended theorem applied on the empty database to
a cookie map without sessionid, one with an empty sessionid, and one
whose token matches no session. -/
theorem C4_three_failure_paths_witness :
    (homepage dbEmpty [] 0 idShuffle = Outcome.crash PyError.keyError ∧
      recipes_list dbEmpty [] 0 idShuffle = Outcome.crash PyError.keyError) ∧
    (homepage dbEmpty [("sessionid", "")] 0 idShuffle = Outcome.emptyResponse 401 ∧
      recipes_list dbEmpty [("sessionid", "")] 0 idShuffle =
        Outcome.crash PyError.typeError) ∧
    (homepage dbEmpty [("sessionid", "zzz")] 0 idShuffle =
        Outcome.errorBody 401 "not authed" ∧
      recipes_list dbEmpty [("sessionid", "zzz")] 0 idShuffle =
        Outcome.crash PyError.typeError) :=
  ⟨(C4_three_failure_paths dbEmpty [] 0 idShuffle).1 rfl,
    (C4_three_failure_paths dbEmpty [("sessionid", "")] 0 idShuffle).2.1 rfl,
    (C4_three_failure_paths dbEmpty [("sessionid", "zzz")] 0 idShuffle).2.2
      "zzz" rfl (by decide) rfl⟩

set_option maxRecDepth 100000 in
/-- C5: on an authenticated request whose recipe-selection query
returns the empty set, both handlers raise an uncaught IndexError at
recipes[0] instead of surfacing a NotFound/404 outcome; the claim
matches the spec's stated intent and the code faults. -/
theorem C5_empty_selection_faults :
    recipeQuery dbNoRecipes 1 = [] ∧
    homepage dbNoRecipes [("sessionid", "tok")] 100 idShuffle =
      Outcome.crash PyError.indexError ∧
    recipes_list dbNoRecipes [("sessionid", "tok")] 100 idShuffle =
      Outcome.crash PyError.indexError := by decide

/-- C6: every row any related-data query returns is scoped to the
selected recipe-id set: ingredient, step, section and note rows carry a
recipe_id in the set, every reaction row's parent note's recipe_id is
in the set, and every timeline row is the image of an event whose
recipe_id is in the set. -/
theorem C6_fetches_scoped_to_id_set (db : DB) (recipe_ids : List Int) :
    (∀ r ∈ ingredientQuery db recipe_ids, r.recipe_id ∈ recipe_ids) ∧
    (∀ r ∈ stepQuery db recipe_ids, r.recipe_id ∈ recipe_ids) ∧
    (∀ r ∈ sectionQuery db recipe_ids, r.recipe_id ∈ recipe_ids) ∧
    (∀ r ∈ noteQuery db recipe_ids, r.recipe_id ∈ recipe_ids) ∧
    (∀ r ∈ reactionQuery db recipe_ids,
      ∃ n ∈ db.notes, r.note_id = n.id ∧ n.recipe_id ∈ recipe_ids) ∧
    (∀ r ∈ timelineQuery db recipe_ids,
      ∃ t ∈ db.timeline_events, t.recipe_id ∈ recipe_ids ∧
        ∃ u, r = mkTimelineRow t u) := by
  refine ⟨?_, ?_, ?_, ?_, ?_, ?_⟩
  · intro r hr
    exact ((mem_ingredientQuery db recipe_ids r).mp hr).2.2
  · intro r hr
    exact ((mem_stepQuery db recipe_ids r).mp hr).2.2
  · intro r hr
    exact ((mem_sectionQuery db recipe_ids r).mp hr).2.2
  · intro r hr
    obtain ⟨n, _, _, hrid, u, _, _, hmk⟩ := (mem_noteQuery db recipe_ids r).mp hr
    rw [hmk]
    exact hrid
  · intro r hr
    exact ((mem_reactionQuery db recipe_ids r).mp hr).2
  · intro r hr
    obtain ⟨t, ht, _, hrid, u, _, hmk⟩ := (mem_timelineQuery db recipe_ids r).mp hr
    exact ⟨t, ht, hrid, u, hmk⟩

/-- C6, witness: the scoping theorem applied to dbHappy and the id set
containing its one recipe id, at one concrete fetched row per query. -/
theorem C6_fetches_scoped_witness :
    rowIng.recipe_id ∈ [(10 : Int)] ∧
    rowStep.recipe_id ∈ [(10 : Int)] ∧
    rowSec.recipe_id ∈ [(10 : Int)] ∧
    rowNoteQ.recipe_id ∈ [(10 : Int)] ∧
    (∃ n ∈ dbHappy.notes, rowReact.note_id = n.id ∧ n.recipe_id ∈ [(10 : Int)]) ∧
    (∃ t ∈ dbHappy.timeline_events, t.recipe_id ∈ [(10 : Int)] ∧
      ∃ u, rowTimelineQ = mkTimelineRow t u) :=
  ⟨(C6_fetches_scoped_to_id_set dbHappy [10]).1 rowIng (by decide),
    (C6_fetches_scoped_to_id_set dbHappy [10]).2.1 rowStep (by decide),
    (C6_fetches_scoped_to_id_set dbHappy [10]).2.2.1 rowSec (by decide),
    (C6_fetches_scoped_to_id_set dbHappy [10]).2.2.2.1 rowNoteQ (by decide),
    (C6_fetches_scoped_to_id_set dbHappy [10]).2.2.2.2.1 rowReact (by decide),
    (C6_fetches_scoped_to_id_set dbHappy [10]).2.2.2.2.2 rowTimelineQ (by decide)⟩

/-- C7: the ingredient, step, section, note and timeline-event fetches
each exclude rows whose deleted_at marker is set, while the reaction
fetch applies no deleted filter: every reaction whose parent note's
recipe_id is in the id set is returned, whatever any deletion markers
say. -/
theorem C7_soft_delete_filters (db : DB) (recipe_ids : List Int) :
    (∀ r ∈ ingredientQuery db recipe_ids, r.deleted_at = Option.none) ∧
    (∀ r ∈ stepQuery db recipe_ids, r.deleted_at = Option.none) ∧
    (∀ r ∈ sectionQuery db recipe_ids, r.deleted_at = Option.none) ∧
    (∀ r ∈ noteQuery db recipe_ids,
      ∃ n ∈ db.notes, n.deleted_at = Option.none ∧
        ∃ u ∈ db.users, r = mkNoteRow n u) ∧
    (∀ r ∈ timelineQuery db recipe_ids,
      ∃ t ∈ db.timeline_events, t.deleted_at = Option.none ∧
        ∃ u, r = mkTimelineRow t u) ∧
    (∀ rr ∈ db.reactions,
      (∃ n ∈ db.notes, rr.note_id = n.id ∧ n.recipe_id ∈ recipe_ids) →
        rr ∈ reactionQuery db recipe_ids) := by
  refine ⟨?_, ?_, ?_, ?_, ?_, ?_⟩
  · intro r hr
    exact ((mem_ingredientQuery db recipe_ids r).mp hr).2.1
  · intro r hr
    exact ((mem_stepQuery db recipe_ids r).mp hr).2.1
  · intro r hr
    exact ((mem_sectionQuery db recipe_ids r).mp hr).2.1
  · intro r hr
    obtain ⟨n, hn, hdel, _, u, hu, _, hmk⟩ := (mem_noteQuery db recipe_ids r).mp hr
    exact ⟨n, hn, hdel, u, hu, hmk⟩
  · intro r hr
    obtain ⟨t, ht, hdel, _, u, _, hmk⟩ := (mem_timelineQuery db recipe_ids r).mp hr
    exact ⟨t, ht, hdel, u, hmk⟩
  · intro rr hrr hex
    exact (mem_reactionQuery db recipe_ids rr).mpr ⟨hrr, hex⟩

/-- C7, witness: the filter theorem applied to dbHappy at each of its
fetched rows, and the reaction-completeness part at its reaction row. -/
theorem C7_soft_delete_witness :
    rowIng.deleted_at = Option.none ∧
    rowStep.deleted_at = Option.none ∧
    rowSec.deleted_at = Option.none ∧
    (∃ n ∈ dbHappy.notes, n.deleted_at = Option.none ∧
      ∃ u ∈ dbHappy.users, rowNoteQ = mkNoteRow n u) ∧
    (∃ t ∈ dbHappy.timeline_events, t.deleted_at = Option.none ∧
      ∃ u, rowTimelineQ = mkTimelineRow t u) ∧
    rowReact ∈ reactionQuery dbHappy [10] :=
  ⟨(C7_soft_delete_filters dbHappy [10]).1 rowIng (by decide),
    (C7_soft_delete_filters dbHappy [10]).2.1 rowStep (by decide),
    (C7_soft_delete_filters dbHappy [10]).2.2.1 rowSec (by decide),
    (C7_soft_delete_filters dbHappy [10]).2.2.2.1 rowNoteQ (by decide),
    (C7_soft_delete_filters dbHappy [10]).2.2.2.2.1 rowTimelineQ (by decide),
    (C7_soft_delete_filters dbHappy [10]).2.2.2.2.2 rowReact (by decide) (by decide)⟩

/-- C8: in both variants, every Note object in the assembled timeline
carries as its reactions exactly the fetched reaction rows whose
note_id equals the note's id, mapped in fetch order (so a note with no
matching reactions carries the empty list). -/
theorem C8_reactions_grouped_per_note (rrows : List ReactionRow)
    (nrows : List NoteQueryRow) (trows : List TimelineQueryRow)
    (hsorted : sortedBy (fun a b => decide (b.created ≤ a.created)) rrows = true) :
    (∀ item ∈ asyncTimelineList trows nrows rrows, ∀ nt,
      item = TimelineItem.note nt →
        nt.reactions =
          (rrows.filter (fun r => r.note_id == nt.id)).map async_mkReaction) ∧
    (∀ item ∈ syncTimelineList trows nrows rrows, ∀ nt,
      item = TimelineItem.note nt →
        nt.reactions =
          (rrows.filter (fun r => r.note_id == nt.id)).map sync_mkReaction) := by
  constructor
  · intro item hitem nt hnt
    rw [asyncTimelineList_eq] at hitem
    rcases List.mem_append.mp hitem with h | h
    · simp only [List.mem_map] at h
      obtain ⟨t, _, rfl⟩ := h
      simp [mkEventItem] at hnt
    · simp only [List.mem_map] at h
      obtain ⟨n, _, rfl⟩ := h
      simp only [asyncNoteItem] at hnt
      cases hnt
      rfl
  · intro item hitem nt hnt
    rw [syncTimelineList_eq] at hitem
    rcases List.mem_append.mp hitem with h | h
    · simp only [List.mem_map] at h
      obtain ⟨t, _, rfl⟩ := h
      simp [mkEventItem] at hnt
    · simp only [List.mem_map] at h
      obtain ⟨n, _, rfl⟩ := h
      simp only [syncNoteItem] at hnt
      cases hnt
      rfl

/-- C8, witness: the grouping theorem applied to dbHappy's fetched
rows, in both variants. -/
theorem C8_reactions_grouped_witness :
    noteItemHappy.reactions =
      (([rowReact] : List ReactionRow).filter
        (fun r => r.note_id == noteItemHappy.id)).map async_mkReaction ∧
    noteItemHappySync.reactions =
      (([rowReact] : List ReactionRow).filter
        (fun r => r.note_id == noteItemHappySync.id)).map sync_mkReaction :=
  ⟨(C8_reactions_grouped_per_note [rowReact] [rowNoteQ] [] (by decide)).1
      (TimelineItem.note noteItemHappy) (by decide) noteItemHappy rfl,
    (C8_reactions_grouped_per_note [rowReact] [rowNoteQ] [] (by decide)).2
      (TimelineItem.note noteItemHappySync) (by decide) noteItemHappySync rfl⟩

set_option maxRecDepth 100000 in
/-- C9, counterexample: a live note whose required creating-user join
partner is missing does not fail the request with a 500: on a
team-owned recipe (whose last-wins name column is the team's name, so
Recipe validation passes) the inner join drops the note, the note
fetch comes back empty, and both handlers answer 200 with the note
silently absent from the timeline. -/
theorem C9_orphan_note_silently_dropped :
    orphanNote ∈ dbOrphanNote.notes ∧ orphanNote.deleted_at = Option.none ∧
    orphanNote.recipe_id = 10 ∧
    (∀ u ∈ dbOrphanNote.users, u.id ≠ orphanNote.created_by_id) ∧
    noteQuery dbOrphanNote [10] = [] ∧
    homepage dbOrphanNote [("sessionid", "tok")] 100 idShuffle =
      Outcome.body 200
        ⟨10, "team a", "a", "s", "t", "sv", ["x"], Option.none, 50, [], [], []⟩ ∧
    recipes_list dbOrphanNote [("sessionid", "tok")] 100 idShuffle =
      Outcome.body 200
        ⟨10, "team a", "a", "s", "t", "sv", ["x"], Option.none, 50, [], [], []⟩ := by
  decide

/-- C9, amended: a note whose creating user row is missing is silently
excluded by the inner join rather than failing the request: every note
row the fetch emits carries an existing creating user, so a note
without one never reaches the response and no DataIntegrity fault is
raised for it. -/
theorem C9_missing_join_partner_drops_row (db : DB) (recipe_ids : List Int) :
    ∀ r ∈ noteQuery db recipe_ids,
      ∃ n ∈ db.notes, ∃ u ∈ db.users, n.created_by_id = u.id ∧ r = mkNoteRow n u := by
  intro r hr
  obtain ⟨n, hn, _, _, u, hu, hcb, hmk⟩ := (mem_noteQuery db recipe_ids r).mp hr
  exact ⟨n, hn, u, hu, hcb, hmk⟩

/-- C9, witness for the amended theorem: dbHappy's emitted note row
has an existing creator. -/
theorem C9_missing_join_partner_witness :
    ∃ n ∈ dbHappy.notes, ∃ u ∈ dbHappy.users,
      n.created_by_id = u.id ∧ rowNoteQ = mkNoteRow n u :=
  C9_missing_join_partner_drops_row dbHappy [10] rowNoteQ (by decide)

/-- C10: in both variants the assembled lists are source-then-source
concatenations: the ingredients list is the mapped ingredient rows
followed by the mapped section rows, the timeline is the mapped
timeline-event rows followed by the mapped note rows, and each mapped
segment preserves its own fetch order (ascending by position for
ingredient and section segments, descending by creation time for event
and note segments) whenever the fetched lists are so ordered. -/
theorem C10_source_then_source_concat (irows : List IngredientRow)
    (srows : List SectionRow) (trows : List TimelineQueryRow)
    (nrows : List NoteQueryRow) (rrows : List ReactionRow)
    (hi : sortedBy (fun a b => strLe a.position b.position) irows = true)
    (hs : sortedBy (fun a b => strLe a.position b.position) srows = true)
    (ht : sortedBy (fun a b => decide (b.created ≤ a.created)) trows = true)
    (hn : sortedBy (fun a b => decide (b.created ≤ a.created)) nrows = true) :
    (asyncIngredientsList irows srows =
      irows.map mkIngredientItem ++ srows.map mkSectionItem) ∧
    (syncIngredientsList irows srows =
      irows.map mkIngredientItem ++ srows.map mkSectionItem) ∧
    (asyncTimelineList trows nrows rrows =
      trows.map mkEventItem ++ nrows.map (asyncNoteItem rrows)) ∧
    (syncTimelineList trows nrows rrows =
      trows.map mkEventItem ++ nrows.map (syncNoteItem rrows)) ∧
    sortedBy (fun a b => strLe a.position b.position)
      (irows.map mkIngredientItem) = true ∧
    sortedBy (fun a b => strLe a.position b.position)
      (srows.map mkSectionItem) = true ∧
    sortedBy (fun a b => decide (b.created_at ≤ a.created_at))
      (trows.map (mkEventItem (β := Int))) = true ∧
    sortedBy (fun a b => decide (b.created_at ≤ a.created_at))
      (nrows.map (asyncNoteItem rrows)) = true ∧
    sortedBy (fun a b => decide (b.created_at ≤ a.created_at))
      (nrows.map (syncNoteItem rrows)) = true := by
  refine ⟨asyncIngredientsList_eq irows srows,
    (syncIngredientsList_eq_async irows srows).trans
      (asyncIngredientsList_eq irows srows),
    asyncTimelineList_eq trows nrows rrows,
    syncTimelineList_eq trows nrows rrows,
    sortedBy_map _ _ _ _ (fun a b h => h) hi,
    sortedBy_map _ _ _ _ (fun a b h => h) hs,
    sortedBy_map _ _ _ _ (fun a b h => h) ht,
    sortedBy_map _ _ _ _ (fun a b h => h) hn,
    sortedBy_map _ _ _ _ (fun a b h => h) hn⟩

/-- C10, witness: the concatenation shape at concrete sorted fetched
lists (dbHappy's rows). -/
theorem C10_source_then_source_witness :
    (asyncIngredientsList [rowIng] [rowSec] =
      [rowIng].map mkIngredientItem ++ [rowSec].map mkSectionItem) ∧
    (syncIngredientsList [rowIng] [rowSec] =
      [rowIng].map mkIngredientItem ++ [rowSec].map mkSectionItem) ∧
    (asyncTimelineList [rowTimelineQ] [rowNoteQ] [rowReact] =
      [rowTimelineQ].map mkEventItem ++ [rowNoteQ].map (asyncNoteItem [rowReact])) ∧
    (syncTimelineList [rowTimelineQ] [rowNoteQ] [rowReact] =
      [rowTimelineQ].map mkEventItem ++ [rowNoteQ].map (syncNoteItem [rowReact])) :=
  ⟨(C10_source_then_source_concat [rowIng] [rowSec] [rowTimelineQ] [rowNoteQ]
      [rowReact] (by decide) (by decide) (by decide) (by decide)).1,
    (C10_source_then_source_concat [rowIng] [rowSec] [rowTimelineQ] [rowNoteQ]
      [rowReact] (by decide) (by decide) (by decide) (by decide)).2.1,
    (C10_source_then_source_concat [rowIng] [rowSec] [rowTimelineQ] [rowNoteQ]
      [rowReact] (by decide) (by decide) (by decide) (by decide)).2.2.1,
    (C10_source_then_source_concat [rowIng] [rowSec] [rowTimelineQ] [rowNoteQ]
      [rowReact] (by decide) (by decide) (by decide) (by decide)).2.2.2.1⟩

end HttpShowdown
